import Mathlib

/-!
Verification of the SonarQube named-semaphore service and of the Bitbucket
project-creation component.

The semaphore facade `SemaphoresImpl` is embedded from
`sonar-core/src/main/java/org/sonar/core/persistence/SemaphoresImpl.java`.
Its collaborators `SemaphoreDao` (the lease store) and `SemaphoreUpdater`
(the lease renewer) are not part of the sources at hand and are modelled
from the specification document.

The Bitbucket component is embedded from
`server/sonar-web/src/main/js/apps/create/project/BitbucketProjectCreate.tsx`.

Stateful Java/TypeScript code is embedded as explicit state passing; thrown
exceptions become `Except` results, and mutations performed before a throw
are kept in the returned state, as the Java heap would keep them. Each
facade operation also returns the trace of collaborator effects it issued,
in order.
-/

namespace SonarSemaphores

/-- A persisted lease record, keyed by name in the store. `createdAt` is set
on first creation; `updatedAt` is refreshed by renewals and reclaiming
acquires. Timestamps are logical instants (seconds). -/
structure LeaseRecord where
  createdAt : Nat
  updatedAt : Nat
deriving Repr, DecidableEq

/-- The shared persistent store: an association of names to lease records. -/
abbrev Store := List (String × LeaseRecord)

/-- The caller-side token returned by an acquire: the Java
`org.sonar.api.utils.Semaphores.Semaphore`, reduced to the fields the
claims are about (its name and whether the acquisition succeeded). -/
structure Semaphore where
  name : String
  locked : Bool
deriving Repr, DecidableEq

/-- Errors the storage layer can raise to the facade's caller. -/
inductive SemError where
  | invalidName
  | storageUnavailable
deriving Repr, DecidableEq

/-- Collaborator effects, traced in the order they are issued. The two
`store*` constructors are storage operations; the two `*Update`
constructors are local renewer operations. -/
inductive Effect where
  | storeTryAcquire (name : String)
  | storeClear (name : String)
  | stopUpdate (name : String)
  | scheduleUpdate (name : String)
deriving Repr, DecidableEq

/-- Whether a traced effect reaches the store. -/
def isStorageEffect : Effect → Bool
  | .storeTryAcquire _ => true
  | .storeClear _ => true
  | .stopUpdate _ => false
  | .scheduleUpdate _ => false

/-- Lookup of the record for a name in the store. -/
def Store.find? : Store → String → Option LeaseRecord
  | [], _ => none
  | kv :: t, name => if kv.1 = name then some kv.2 else Store.find? t name

/-- Create-or-overwrite of the record for a name (the store's conditional
write, after the condition has been decided). -/
def Store.set : Store → String → LeaseRecord → Store
  | [], name, r => [(name, r)]
  | kv :: t, name, r =>
      if kv.1 = name then (name, r) :: t else kv :: Store.set t name r

/-- Removal of the record for a name; removing an absent name is a no-op. -/
def Store.clear : Store → String → Store
  | [], _ => []
  | kv :: t, name =>
      if kv.1 = name then Store.clear t name else kv :: Store.clear t name

/-- Modelled from the spec: `SemaphoreDao.acquire(String,int)` (the
LeaseStore's `tryAcquire`) is not under the sources at hand. Per the spec:
an empty or malformed name is rejected before any storage call; a
transient storage failure (`up = false`) surfaces as `StorageUnavailable`
with no write; otherwise, atomically, if no record exists one is created
with `updatedAt = now` and `acquired = true`; if the record is reclaimable
(`now - updatedAt > maxAge`) its `updatedAt` is overwritten to `now` and
`acquired = true`; otherwise `acquired = false` and the record is
unchanged. -/
def SemaphoreDao.acquire (store : Store) (up : Bool) (now : Nat)
    (name : String) (maxAgeInSeconds : Nat) :
    Except SemError (Semaphore × Store) × List Effect :=
  if name = "" then (.error .invalidName, [])
  else if up then
    match Store.find? store name with
    | none =>
        (.ok ({ name := name, locked := true },
              Store.set store name { createdAt := now, updatedAt := now }),
         [.storeTryAcquire name])
    | some r =>
        if maxAgeInSeconds < now - r.updatedAt then
          (.ok ({ name := name, locked := true },
                Store.set store name { createdAt := r.createdAt, updatedAt := now }),
           [.storeTryAcquire name])
        else
          (.ok ({ name := name, locked := false }, store), [.storeTryAcquire name])
  else (.error .storageUnavailable, [])

/-- Modelled from the spec: `SemaphoreDao.acquire(String)`, the
non-expiring variant, is not under the sources at hand. Per the spec it
creates/holds the lease with no automatic expiry: with no `maxAge` there
is no reclaim path, so an existing record always blocks the caller. -/
def SemaphoreDao.acquireNoExpiry (store : Store) (up : Bool) (now : Nat)
    (name : String) :
    Except SemError (Semaphore × Store) × List Effect :=
  if name = "" then (.error .invalidName, [])
  else if up then
    match Store.find? store name with
    | none =>
        (.ok ({ name := name, locked := true },
              Store.set store name { createdAt := now, updatedAt := now }),
         [.storeTryAcquire name])
    | some _ =>
        (.ok ({ name := name, locked := false }, store), [.storeTryAcquire name])
  else (.error .storageUnavailable, [])

/-- Modelled from the spec: `SemaphoreDao.release(String)` (the
LeaseStore's `clear`) is not under the sources at hand. Per the spec it
removes the record for the name, idempotently; the name is validated
before any storage call. -/
def SemaphoreDao.release (store : Store) (up : Bool) (name : String) :
    Except SemError Store × List Effect :=
  if name = "" then (.error .invalidName, [])
  else if up then (.ok (Store.clear store name), [.storeClear name])
  else (.error .storageUnavailable, [])

/-- The local renewal-task registry of the renewer: the names with a
scheduled task, each with its renewal period. -/
abbrev Updater := List (String × Nat)

/-- Modelled from the spec: `SemaphoreUpdater.scheduleForUpdate` is not
under the sources at hand. Per the spec it begins a repeating renewal
timer for the semaphore's name at the given period. -/
def SemaphoreUpdater.scheduleForUpdate (u : Updater) (sem : Semaphore)
    (updatePeriodInSeconds : Nat) : Updater :=
  (sem.name, updatePeriodInSeconds) :: u

/-- Modelled from the spec: `SemaphoreUpdater.stopUpdate` is not under the
sources at hand. Per the spec it stops further renewal ticks for the name
and is idempotent (a no-op on an unscheduled name). -/
def SemaphoreUpdater.stopUpdate : Updater → String → Updater
  | [], _ => []
  | t :: u, name =>
      if t.1 = name then SemaphoreUpdater.stopUpdate u name
      else t :: SemaphoreUpdater.stopUpdate u name

/-- Whether a renewal task is registered for a name. -/
def SemaphoreUpdater.scheduled : Updater → String → Bool
  | [], _ => false
  | t :: u, name => if t.1 = name then true else SemaphoreUpdater.scheduled u name

/-- The process-local system state seen by the facade: the shared store and
the renewer's task registry. -/
structure SysState where
  store : Store
  updater : Updater
deriving Repr, DecidableEq

/-- Outcome of a facade acquire: the returned semaphore (or the propagated
error), the post state, and the trace of collaborator effects. -/
structure AcquireOutcome where
  result : Except SemError Semaphore
  state : SysState
  trace : List Effect
deriving Repr

/-- Outcome of a facade release. -/
structure ReleaseOutcome where
  result : Except SemError Unit
  state : SysState
  trace : List Effect
deriving Repr

/-- Embeds `SemaphoresImpl.acquire(String,int,int)` from the source:
`Semaphore semaphore = dao.acquire(name, maxAgeInSeconds);`
`updater.scheduleForUpdate(semaphore, updatePeriodInSeconds);`
`return semaphore;` — note the schedule call is unconditional on the
acquisition outcome. If the dao call throws, the exception propagates
before the renewer is touched. -/
def SemaphoresImpl.acquire (st : SysState) (up : Bool) (now : Nat)
    (name : String) (maxAgeInSeconds updatePeriodInSeconds : Nat) :
    AcquireOutcome :=
  match SemaphoreDao.acquire st.store up now name maxAgeInSeconds with
  | (.error e, tr) => { result := .error e, state := st, trace := tr }
  | (.ok (semaphore, store'), tr) =>
      { result := .ok semaphore,
        state :=
          { store := store',
            updater :=
              SemaphoreUpdater.scheduleForUpdate st.updater semaphore
                updatePeriodInSeconds },
        trace := tr ++ [.scheduleUpdate semaphore.name] }

/-- Embeds `SemaphoresImpl.acquire(String)` from the source:
`return dao.acquire(name);` — no renewer interaction at all. -/
def SemaphoresImpl.acquireOne (st : SysState) (up : Bool) (now : Nat)
    (name : String) : AcquireOutcome :=
  match SemaphoreDao.acquireNoExpiry st.store up now name with
  | (.error e, tr) => { result := .error e, state := st, trace := tr }
  | (.ok (semaphore, store'), tr) =>
      { result := .ok semaphore,
        state := { store := store', updater := st.updater },
        trace := tr }

/-- Embeds `SemaphoresImpl.release(String)` from the source:
`updater.stopUpdate(name);`
`dao.release(name);` — the local stop happens first; if the dao call
throws, the stop has already taken effect. -/
def SemaphoresImpl.release (st : SysState) (up : Bool) (name : String) :
    ReleaseOutcome :=
  let updater' := SemaphoreUpdater.stopUpdate st.updater name
  match SemaphoreDao.release st.store up name with
  | (.error e, tr) =>
      { result := .error e,
        state := { store := st.store, updater := updater' },
        trace := .stopUpdate name :: tr }
  | (.ok store', tr) =>
      { result := .ok (),
        state := { store := store', updater := updater' },
        trace := .stopUpdate name :: tr }

/-- Concurrency harness for the store's `tryAcquire`: a set of concurrent
calls on one name, all in the same window (logical instant `now`), each
with its own `maxAge`. The spec makes `tryAcquire` a single atomic
storage transaction, so the concurrent calls execute in some serial
order; this runs one such order and collects each call's `acquired`
outcome. -/
def runTryAcquireBatch (store : SonarSemaphores.Store) (now : Nat)
    (name : String) :
    List Nat → List Bool × SonarSemaphores.Store
  | [] => ([], store)
  | m :: ms =>
      match SonarSemaphores.SemaphoreDao.acquire store true now name m with
      | (.ok (sem, store'), _) =>
          let rest := runTryAcquireBatch store' now name ms
          (sem.locked :: rest.1, rest.2)
      | (.error _, _) =>
          let rest := runTryAcquireBatch store now name ms
          (false :: rest.1, rest.2)

/-- Number of `acquired = true` outcomes in a batch. -/
def countAcquired : List Bool → Nat
  | [] => 0
  | b :: l => (if b then 1 else 0) + countAcquired l

end SonarSemaphores

namespace BitbucketCreate

/-- A Bitbucket Server repository, reduced to the fields the component
uses. -/
structure BitbucketRepository where
  id : Nat
  slug : String
  name : String
  projectKey : String
deriving Repr, DecidableEq

/-- A Bitbucket Server project. -/
structure BitbucketProject where
  key : String
  name : String
deriving Repr, DecidableEq

/-- The payload of `getBitbucketServerRepositories`. -/
structure RepoPage where
  isLastPage : Bool
  repositories : List BitbucketRepository
deriving Repr, DecidableEq

/-- One entry of `BitbucketProjectRepositories`, as built by the reduce in
`fetchBitbucketRepositories`. -/
structure ProjectRepositories where
  allShown : Bool
  repositories : List BitbucketRepository
deriving Repr, DecidableEq

/-- The intermediate per-project record built inside `Promise.all`. -/
structure ProjectRepoResult where
  repositories : List BitbucketRepository
  isLastPage : Bool
  projectKey : String
deriving Repr, DecidableEq

/-- The `.then` callback applied to each project's repository page in
`fetchBitbucketRepositories`: keep only repositories whose `projectKey`
equals the project's key (the WS matches by project-name prefix, so extra
repositories can come back), and recompute `isLastPage` as
`isLastPage || filteredRepositories.length < DEFAULT_BBS_PAGE_SIZE`.
The page size constant comes from `./constants` and is passed here as the
`pageSize` argument. -/
def fetchRepositoriesForProject (pageSize : Nat) (p : BitbucketProject)
    (page : RepoPage) : ProjectRepoResult :=
  let filteredRepositories := page.repositories.filter
    (fun r => r.projectKey = p.key)
  let realIsLastPage :=
    page.isLastPage || decide (filteredRepositories.length < pageSize)
  { repositories := filteredRepositories,
    isLastPage := realIsLastPage,
    projectKey := p.key }

/-- Embeds `BitbucketProjectCreate.fetchBitbucketRepositories`: map every project
through its repository fetch and reduce the results into an object keyed
by project key (`{ ...acc, [projectKey]: { allShown: isLastPage,
repositories } }`; a later project with the same key overwrites an
earlier one). `resp` stands for the backend's response to
`getBitbucketServerRepositories` for each project. -/
def fetchBitbucketRepositories (pageSize : Nat)
    (resp : BitbucketProject → RepoPage)
    (projects : List BitbucketProject) : String → Option ProjectRepositories :=
  (projects.map (fun p => fetchRepositoriesForProject pageSize p (resp p))).foldl
    (fun acc r => fun k =>
      if k = r.projectKey then
        some { allShown := r.isLastPage, repositories := r.repositories }
      else acc k)
    (fun _ => none)

/-- The component state of `BitbucketProjectCreate`, with
`bitbucketSetting` reduced to the instance key the component uses and
`projectRepositories` as the keyed association the reduce builds. -/
structure ComponentState where
  bitbucketSetting : Option String
  importing : Bool
  loading : Bool
  patIsValid : Option Bool
  projects : Option (List BitbucketProject)
  projectRepositories : Option (List (String × ProjectRepositories))
  searching : Bool
  searchResults : Option (List BitbucketRepository)
  selectedRepository : Option BitbucketRepository
  submittingToken : Option Bool
  tokenValidationFailed : Bool
deriving Repr, DecidableEq

/-- Outcome of the synchronous part of `handleSearch`: the state after the
`setState` call (if any) and whether a network request was issued
(`searchForBitbucketServerRepositories`). -/
structure SearchOutcome where
  state : ComponentState
  requestIssued : Bool
deriving Repr, DecidableEq

/-- Embeds `BitbucketProjectCreate.handleSearch`, synchronous part, from the
source: return early when no `bitbucketSetting`; on an empty (falsy)
query, `setState({ searching: false, searchResults: undefined,
selectedRepository: undefined })` and return without a request; otherwise
`setState({ searching: true, selectedRepository: undefined })` and issue
the search request. -/
def handleSearch (s : ComponentState) (query : String) : SearchOutcome :=
  match s.bitbucketSetting with
  | none => { state := s, requestIssued := false }
  | some _ =>
      if query = "" then
        { state :=
            { s with
              searching := false, searchResults := none,
              selectedRepository := none },
          requestIssued := false }
      else
        { state := { s with searching := true, selectedRepository := none },
          requestIssued := true }

end BitbucketCreate

namespace SonarSemaphores

/-- Setting a record for a name makes it the one found for that name. -/
theorem Store.find?_set_self (s : Store) (name : String) (r : LeaseRecord) :
    Store.find? (Store.set s name r) name = some r := by
  induction s with
  | nil => simp [Store.set, Store.find?]
  | cons kv t ih =>
      by_cases hk : kv.1 = name
      · simp [Store.set, Store.find?, hk]
      · simp [Store.set, Store.find?, hk, ih]

/-- Clearing a name removes every record found under it. -/
theorem Store.find?_clear_self (s : Store) (name : String) :
    Store.find? (Store.clear s name) name = none := by
  induction s with
  | nil => simp [Store.clear, Store.find?]
  | cons kv t ih =>
      by_cases hk : kv.1 = name
      · simp [Store.clear, hk, ih]
      · simp [Store.clear, Store.find?, hk, ih]

/-- After `stopUpdate`, no renewal task remains registered for the name. -/
theorem SemaphoreUpdater.scheduled_stopUpdate (u : Updater) (name : String) :
    SemaphoreUpdater.scheduled (SemaphoreUpdater.stopUpdate u name) name = false := by
  induction u with
  | nil => simp [SemaphoreUpdater.stopUpdate, SemaphoreUpdater.scheduled]
  | cons t u ih =>
      by_cases hk : t.1 = name
      · simp [SemaphoreUpdater.stopUpdate, hk, ih]
      · simp [SemaphoreUpdater.stopUpdate, SemaphoreUpdater.scheduled, hk, ih]

/-- Once the record for the name carries `updatedAt = now`, every further
`tryAcquire` in the same window comes back `acquired = false` and leaves
the store unchanged. -/
theorem runTryAcquireBatch_blocked (now : Nat) (name : String) :
    ∀ (ms : List Nat) (store : Store) (r : LeaseRecord),
      Store.find? store name = some r → r.updatedAt = now →
      countAcquired (runTryAcquireBatch store now name ms).1 = 0 := by
  intro ms
  induction ms with
  | nil => intro store r _ _; simp [runTryAcquireBatch, countAcquired]
  | cons m ms ih =>
      intro store r hfind hupd
      by_cases hname : name = ""
      · subst hname
        simp only [runTryAcquireBatch, SemaphoreDao.acquire, if_pos rfl]
        simpa [countAcquired] using ih store r hfind hupd
      · simp only [runTryAcquireBatch, SemaphoreDao.acquire, hname, hfind, hupd,
          if_neg hname, Nat.sub_self, Nat.not_lt_zero, if_true, if_false]
        simpa [countAcquired] using ih store r hfind hupd

/-- C2: for every name and every set of concurrent `tryAcquire` calls on
that name within the same unexpired lease window (serialized in any order
by the store's atomicity, all at instant `now`, each with its own
`maxAge`), at most one call observes `acquired = true`. -/
theorem tryAcquire_mutual_exclusion (store : Store) (now : Nat)
    (name : String) (ms : List Nat) :
    countAcquired (runTryAcquireBatch store now name ms).1 ≤ 1 := by
  induction ms generalizing store with
  | nil => simp [runTryAcquireBatch, countAcquired]
  | cons m ms ih =>
      by_cases hname : name = ""
      · subst hname
        simp only [runTryAcquireBatch, SemaphoreDao.acquire, if_pos rfl]
        simpa [countAcquired] using ih store
      · cases hfind : Store.find? store name with
        | none =>
            simp only [runTryAcquireBatch, SemaphoreDao.acquire, if_neg hname,
              hfind, if_true]
            have hrest := runTryAcquireBatch_blocked now name ms
              (Store.set store name { createdAt := now, updatedAt := now })
              { createdAt := now, updatedAt := now }
              (Store.find?_set_self store name _) rfl
            simp [countAcquired, hrest]
        | some r =>
            by_cases hage : m < now - r.updatedAt
            case pos =>
              simp only [runTryAcquireBatch, SemaphoreDao.acquire, if_neg hname,
                hfind, if_true, if_pos hage]
              have hrest := runTryAcquireBatch_blocked now name ms
                (Store.set store name { createdAt := r.createdAt, updatedAt := now })
                { createdAt := r.createdAt, updatedAt := now }
                (Store.find?_set_self store name _) rfl
              simp [countAcquired, hrest]
            case neg =>
              simp only [runTryAcquireBatch, SemaphoreDao.acquire, if_neg hname,
                hfind, if_true, if_neg hage]
              simpa [countAcquired] using ih store

/-- C1: the claim says a renewal task is registered via `scheduleForUpdate`
if and only if `tryAcquire` returned `acquired = true`. The source of
`SemaphoresImpl.acquire(String,int,int)` calls
`updater.scheduleForUpdate` unconditionally: at the concrete input below
("job-x" held and unexpired, so `acquired = false`) a renewal task is
registered anyway, contradicting the claim and the spec's "if
`acquired=true`, registers renewal". -/
theorem acquire_schedules_renewal_despite_not_acquired :
    (SemaphoresImpl.acquire
        { store := [("job-x", { createdAt := 0, updatedAt := 100 })],
          updater := [] }
        true 100 ("job-x") 60 20).result
      = .ok { name := "job-x", locked := false } ∧
    SemaphoreUpdater.scheduled
      (SemaphoresImpl.acquire
        { store := [("job-x", { createdAt := 0, updatedAt := 100 })],
          updater := [] }
        true 100 ("job-x") 60 20).state.updater ("job-x") = true ∧
    (SemaphoresImpl.acquire
        { store := [("job-x", { createdAt := 0, updatedAt := 100 })],
          updater := [] }
        true 100 ("job-x") 60 20).trace
      = [.storeTryAcquire "job-x", .scheduleUpdate "job-x"] :=
  ⟨rfl, rfl, rfl⟩

/-- C3: `release(name)` returns success for every state and every valid
name, with no precondition that the caller previously acquired the lease;
its effect trace stops the local renewal task first and clears the store
record only afterwards. -/
theorem release_stops_renewal_then_clears (st : SysState) (name : String)
    (h : ¬ name = "") :
    (SemaphoresImpl.release st true name).result = .ok () ∧
    (SemaphoresImpl.release st true name).trace
      = [.stopUpdate name, .storeClear name] ∧
    (SemaphoresImpl.release st true name).state.updater
      = SemaphoreUpdater.stopUpdate st.updater name ∧
    (SemaphoresImpl.release st true name).state.store
      = Store.clear st.store name := by
  refine ⟨?_, ?_, ?_, ?_⟩ <;>
    simp [SemaphoresImpl.release, SemaphoreDao.release, h]

/-- Witness for C3 at a concrete state that was acquired by someone else. -/
theorem release_stops_renewal_then_clears_witness :
    (¬ "job-x" = "") ∧
    ((SemaphoresImpl.release
        { store := [("job-x", { createdAt := 3, updatedAt := 7 })],
          updater := [("job-x", 20)] }
        true ("job-x")).result = .ok () ∧
     (SemaphoresImpl.release
        { store := [("job-x", { createdAt := 3, updatedAt := 7 })],
          updater := [("job-x", 20)] }
        true ("job-x")).trace
        = [.stopUpdate "job-x", .storeClear "job-x"] ∧
     (SemaphoresImpl.release
        { store := [("job-x", { createdAt := 3, updatedAt := 7 })],
          updater := [("job-x", 20)] }
        true ("job-x")).state.updater
        = SemaphoreUpdater.stopUpdate [("job-x", 20)] ("job-x") ∧
     (SemaphoresImpl.release
        { store := [("job-x", { createdAt := 3, updatedAt := 7 })],
          updater := [("job-x", 20)] }
        true ("job-x")).state.store
        = Store.clear [("job-x", { createdAt := 3, updatedAt := 7 })] ("job-x")) :=
  ⟨by decide,
   release_stops_renewal_then_clears
     { store := [("job-x", { createdAt := 3, updatedAt := 7 })],
       updater := [("job-x", 20)] }
     ("job-x") (by decide)⟩

/-- C4: when the storage clear fails (`up = false`), `release` surfaces the
error, but the local renewal task for the name has already been cancelled
by then: the renewer's registry holds no task for the name afterwards. -/
theorem release_cancels_renewal_even_on_storage_failure (st : SysState)
    (name : String) (h : ¬ name = "") :
    (SemaphoresImpl.release st false name).result
      = .error .storageUnavailable ∧
    (SemaphoresImpl.release st false name).state.updater
      = SemaphoreUpdater.stopUpdate st.updater name ∧
    SemaphoreUpdater.scheduled
      (SemaphoresImpl.release st false name).state.updater name = false := by
  refine ⟨?_, ?_, ?_⟩ <;>
    simp [SemaphoresImpl.release, SemaphoreDao.release, h,
      SemaphoreUpdater.scheduled_stopUpdate]

/-- Witness for C4 at a concrete state with a running renewal task. -/
theorem release_cancels_renewal_even_on_storage_failure_witness :
    (¬ "job-x" = "") ∧
    ((SemaphoresImpl.release
        { store := [("job-x", { createdAt := 3, updatedAt := 7 })],
          updater := [("job-x", 20)] }
        false ("job-x")).result = .error .storageUnavailable ∧
     (SemaphoresImpl.release
        { store := [("job-x", { createdAt := 3, updatedAt := 7 })],
          updater := [("job-x", 20)] }
        false ("job-x")).state.updater
        = SemaphoreUpdater.stopUpdate [("job-x", 20)] ("job-x") ∧
     SemaphoreUpdater.scheduled
       (SemaphoresImpl.release
          { store := [("job-x", { createdAt := 3, updatedAt := 7 })],
            updater := [("job-x", 20)] }
          false ("job-x")).state.updater ("job-x") = false) :=
  ⟨by decide,
   release_cancels_renewal_even_on_storage_failure
     { store := [("job-x", { createdAt := 3, updatedAt := 7 })],
       updater := [("job-x", 20)] }
     ("job-x") (by decide)⟩

/-- C5: when the store's `tryAcquire` itself fails with a storage error,
`acquire` surfaces the error and leaves no local state behind: the whole
system state is unchanged, so in particular no renewal task was
registered, and no effect was issued. -/
theorem acquire_storage_failure_leaves_no_local_state (st : SysState)
    (now maxAge period : Nat) (name : String) (h : ¬ name = "") :
    (SemaphoresImpl.acquire st false now name maxAge period).result
      = .error .storageUnavailable ∧
    (SemaphoresImpl.acquire st false now name maxAge period).state = st ∧
    (SemaphoresImpl.acquire st false now name maxAge period).state.updater
      = st.updater ∧
    (SemaphoresImpl.acquire st false now name maxAge period).trace = [] := by
  refine ⟨?_, ?_, ?_, ?_⟩ <;>
    simp [SemaphoresImpl.acquire, SemaphoreDao.acquire, h]

/-- Witness for C5 at a concrete state. -/
theorem acquire_storage_failure_leaves_no_local_state_witness :
    (¬ "job-x" = "") ∧
    ((SemaphoresImpl.acquire { store := [], updater := [] }
        false 5 ("job-x") 60 20).result = .error .storageUnavailable ∧
     (SemaphoresImpl.acquire { store := [], updater := [] }
        false 5 ("job-x") 60 20).state = { store := [], updater := [] } ∧
     (SemaphoresImpl.acquire { store := [], updater := [] }
        false 5 ("job-x") 60 20).state.updater = [] ∧
     (SemaphoresImpl.acquire { store := [], updater := [] }
        false 5 ("job-x") 60 20).trace = []) :=
  ⟨by decide,
   acquire_storage_failure_leaves_no_local_state
     { store := [], updater := [] } 5 60 20 ("job-x") (by decide)⟩

/-- C6: the one-argument `acquire(name)` leaves the renewer untouched and
issues only the store acquisition; on success the resulting lease has no
automatic expiry: at every later instant `t` another non-expiring acquire
still finds it held (`acquired = false`) and the record persists
unchanged, until explicitly released. -/
theorem acquireOne_no_renewal_no_expiry (st : SysState) (now : Nat)
    (name : String) (h : ¬ name = "") :
    (SemaphoresImpl.acquireOne st true now name).state.updater = st.updater ∧
    (∀ e ∈ (SemaphoresImpl.acquireOne st true now name).trace,
        e = .storeTryAcquire name) ∧
    ((SemaphoresImpl.acquireOne st true now name).result
        = .ok { name := name, locked := true } →
      ∀ t : Nat,
        (SemaphoresImpl.acquireOne
            (SemaphoresImpl.acquireOne st true now name).state true t
            name).result
          = .ok { name := name, locked := false } ∧
        (SemaphoresImpl.acquireOne
            (SemaphoresImpl.acquireOne st true now name).state true t
            name).state
          = (SemaphoresImpl.acquireOne st true now name).state) := by
  cases hfind : Store.find? st.store name with
  | none =>
      refine ⟨?_, ?_, ?_⟩
      · simp [SemaphoresImpl.acquireOne, SemaphoreDao.acquireNoExpiry, h, hfind]
      · simp [SemaphoresImpl.acquireOne, SemaphoreDao.acquireNoExpiry, h, hfind]
      · intro _ t
        constructor <;>
          simp [SemaphoresImpl.acquireOne, SemaphoreDao.acquireNoExpiry, h,
            hfind, Store.find?_set_self]
  | some r =>
      refine ⟨?_, ?_, ?_⟩
      · simp [SemaphoresImpl.acquireOne, SemaphoreDao.acquireNoExpiry, h, hfind]
      · simp [SemaphoresImpl.acquireOne, SemaphoreDao.acquireNoExpiry, h, hfind]
      · intro hres
        exfalso
        simp [SemaphoresImpl.acquireOne, SemaphoreDao.acquireNoExpiry, h,
          hfind] at hres

/-- Witness for C6: a fresh acquire of "job-x" at instant 5, probed again
at the much later instant 500. -/
theorem acquireOne_no_renewal_no_expiry_witness :
    (¬ "job-x" = "") ∧
    ((SemaphoresImpl.acquireOne { store := [], updater := [("other", 7)] }
        true 5 ("job-x")).state.updater = [("other", 7)]) ∧
    ((SemaphoresImpl.acquireOne { store := [], updater := [("other", 7)] }
        true 5 ("job-x")).result = .ok { name := "job-x", locked := true }) ∧
    ((SemaphoresImpl.acquireOne
        (SemaphoresImpl.acquireOne { store := [], updater := [("other", 7)] }
          true 5 ("job-x")).state true 500 ("job-x")).result
      = .ok { name := "job-x", locked := false }) :=
  ⟨by decide,
   (acquireOne_no_renewal_no_expiry { store := [], updater := [("other", 7)] }
      5 ("job-x") (by decide)).1,
   rfl,
   ((acquireOne_no_renewal_no_expiry { store := [], updater := [("other", 7)] }
      5 ("job-x") (by decide)).2.2 rfl 500).1⟩

/-- C7: the empty (invalid) name is rejected with `InvalidName` by
`acquire`, the one-argument `acquire` and `release`, before any storage
operation is invoked: no storage effect appears in any of the traces and
the store is untouched. -/
theorem invalid_name_rejected_before_storage (st : SysState)
    (now maxAge period : Nat) :
    (SemaphoresImpl.acquire st true now ("") maxAge period).result
      = .error .invalidName ∧
    (SemaphoresImpl.acquire st true now ("") maxAge period).state = st ∧
    (SemaphoresImpl.acquire st true now ("") maxAge period).trace.filter
        isStorageEffect = [] ∧
    (SemaphoresImpl.acquireOne st true now ("")).result
      = .error .invalidName ∧
    (SemaphoresImpl.acquireOne st true now ("")).state = st ∧
    (SemaphoresImpl.acquireOne st true now ("")).trace.filter
        isStorageEffect = [] ∧
    (SemaphoresImpl.release st true ("")).result = .error .invalidName ∧
    (SemaphoresImpl.release st true ("")).state.store = st.store ∧
    (SemaphoresImpl.release st true ("")).trace.filter isStorageEffect
      = [] :=
  ⟨rfl, rfl, rfl, rfl, rfl, rfl, rfl, rfl, rfl⟩

/-- C8: a `release(name)` immediately followed by an
`acquire(name, maxAge, interval)` always comes back `acquired = true`:
the clear leaves no residue that blocks reacquisition, whatever the prior
state, at any instant `t`. -/
theorem release_then_acquire_acquires (st : SysState) (name : String)
    (maxAge period t : Nat) (h : ¬ name = "") :
    (SemaphoresImpl.acquire (SemaphoresImpl.release st true name).state
        true t name maxAge period).result
      = .ok { name := name, locked := true } := by
  have hstore : (SemaphoresImpl.release st true name).state.store
      = Store.clear st.store name := by
    simp [SemaphoresImpl.release, SemaphoreDao.release, h]
  simp [SemaphoresImpl.acquire, SemaphoreDao.acquire, h, hstore,
    Store.find?_clear_self]

/-- Witness for C8: "job-x" is held and far from expiry (updated at 50,
reacquired at 51 with a 60-second max age), yet after the release the
acquire succeeds. -/
theorem release_then_acquire_acquires_witness :
    (¬ "job-x" = "") ∧
    (SemaphoresImpl.acquire
        (SemaphoresImpl.release
          { store := [("job-x", { createdAt := 0, updatedAt := 50 })],
            updater := [("job-x", 20)] }
          true ("job-x")).state
        true 51 ("job-x") 60 20).result
      = .ok { name := "job-x", locked := true } :=
  ⟨by decide,
   release_then_acquire_acquires
     { store := [("job-x", { createdAt := 0, updatedAt := 50 })],
       updater := [("job-x", 20)] }
     ("job-x") 60 20 51 (by decide)⟩

end SonarSemaphores

namespace BitbucketCreate

/-- Every binding produced by the keyed reduce comes from the accumulator
or from one of the reduced per-project records. -/
theorem foldl_keyed_some (rs : List ProjectRepoResult) :
    ∀ (acc : String → Option ProjectRepositories) (k : String)
      (v : ProjectRepositories),
      (rs.foldl (fun acc r => fun k' =>
          if k' = r.projectKey then
            some { allShown := r.isLastPage, repositories := r.repositories }
          else acc k') acc) k = some v →
      acc k = some v ∨
        ∃ r ∈ rs, k = r.projectKey ∧
          v = { allShown := r.isLastPage, repositories := r.repositories } := by
  induction rs with
  | nil => intro acc k v hfold; exact Or.inl hfold
  | cons r rs ih =>
      intro acc k v hfold
      rw [List.foldl_cons] at hfold
      rcases ih _ k v hfold with hacc | ⟨r', hr', hk, hv⟩
      · by_cases hk : k = r.projectKey
        · refine Or.inr ⟨r, by simp, hk, ?_⟩
          have h2 : (if k = r.projectKey then
              some { allShown := r.isLastPage, repositories := r.repositories }
            else acc k) = some v := hacc
          rw [if_pos hk] at h2
          exact (Option.some_inj.mp h2).symm
        · exact Or.inl (by simpa [hk] using hacc)
      · exact Or.inr ⟨r', by simp [hr'], hk, hv⟩

/-- C9: every repository in a per-project entry of
`fetchBitbucketRepositories` carries that project's key (the name-prefix
matches are filtered out), and the entry's `allShown` flag is true
whenever the backend reported `isLastPage` or the filtered count is
strictly below the page size. -/
theorem fetchBitbucketRepositories_per_project (pageSize : Nat)
    (resp : BitbucketProject → RepoPage) (projects : List BitbucketProject)
    (k : String) (v : ProjectRepositories)
    (hfetch : fetchBitbucketRepositories pageSize resp projects k = some v) :
    ∃ p ∈ projects, k = p.key ∧
      (∀ r ∈ v.repositories, r.projectKey = p.key) ∧
      (((resp p).isLastPage = true ∨ v.repositories.length < pageSize) →
        v.allShown = true) := by
  unfold fetchBitbucketRepositories at hfetch
  rcases foldl_keyed_some _ _ k v hfetch with hnone | ⟨r, hr, hk, hv⟩
  · exact absurd hnone (by simp)
  · rcases List.mem_map.mp hr with ⟨p, hp, hpr⟩
    subst hpr
    subst hv
    refine ⟨p, hp, ?_, ?_, ?_⟩
    · simpa [fetchRepositoriesForProject] using hk
    · intro repo hrepo
      simp only [fetchRepositoriesForProject, List.mem_filter,
        decide_eq_true_eq] at hrepo
      exact hrepo.2
    · intro hpre
      rcases hpre with h1 | h2
      · simp [fetchRepositoriesForProject, h1]
      · simp only [fetchRepositoriesForProject] at h2 ⊢
        simp [h2]

/-- Witness for C9: one project "KEY" whose page contains a matching and a
prefix-matched foreign repository; the foreign one is filtered out and
`allShown` is true. -/
theorem fetchBitbucketRepositories_per_project_witness :
    (fetchBitbucketRepositories 25
        (fun _ => { isLastPage := true,
                    repositories :=
                      [{ id := 1, slug := "sl", name := "Repo",
                         projectKey := "KEY" },
                       { id := 2, slug := "ot", name := "Other",
                         projectKey := "KEY2" }] })
        [{ key := "KEY", name := "KE" }] ("KEY")
      = some { allShown := true,
               repositories :=
                 [{ id := 1, slug := "sl", name := "Repo",
                    projectKey := "KEY" }] }) ∧
    (∃ p ∈ [{ key := "KEY", name := "KE" }], ("KEY" : String) = p.key ∧
      (∀ r ∈ [{ id := 1, slug := "sl", name := "Repo",
                projectKey := "KEY" }], BitbucketRepository.projectKey r = p.key) ∧
      ((((fun (_ : BitbucketProject) =>
            ({ isLastPage := true,
               repositories :=
                 [{ id := 1, slug := "sl", name := "Repo",
                    projectKey := "KEY" },
                  { id := 2, slug := "ot", name := "Other",
                    projectKey := "KEY2" }] } : RepoPage)) p).isLastPage = true ∨
          ([{ id := 1, slug := "sl", name := "Repo",
              projectKey := "KEY" }] : List BitbucketRepository).length < 25) →
        true = true)) :=
  ⟨rfl,
   fetchBitbucketRepositories_per_project 25
     (fun _ => { isLastPage := true,
                 repositories :=
                   [{ id := 1, slug := "sl", name := "Repo",
                      projectKey := "KEY" },
                    { id := 2, slug := "ot", name := "Other",
                      projectKey := "KEY2" }] })
     [{ key := "KEY", name := "KE" }] ("KEY")
     { allShown := true,
       repositories :=
         [{ id := 1, slug := "sl", name := "Repo", projectKey := "KEY" }] }
     rfl⟩

/-- C10 counterexample: with no `bitbucketSetting` configured (as happens
when the instance list is empty) but a repository already selected via
`handleSelectRepository`, `handleSearch` with an empty query returns
early and clears nothing, contradicting the claim's unconditional
clearing. -/
theorem handleSearch_empty_query_counterexample :
    ¬ (((handleSearch
          { bitbucketSetting := none, importing := false, loading := false,
            patIsValid := none, projects := none, projectRepositories := none,
            searching := true,
            searchResults :=
              some [{ id := 1, slug := "sl", name := "Repo",
                      projectKey := "KEY" }],
            selectedRepository :=
              some { id := 1, slug := "sl", name := "Repo",
                     projectKey := "KEY" },
            submittingToken := none, tokenValidationFailed := false }
          ("")).state.searchResults = none) ∧
       ((handleSearch
          { bitbucketSetting := none, importing := false, loading := false,
            patIsValid := none, projects := none, projectRepositories := none,
            searching := true,
            searchResults :=
              some [{ id := 1, slug := "sl", name := "Repo",
                      projectKey := "KEY" }],
            selectedRepository :=
              some { id := 1, slug := "sl", name := "Repo",
                     projectKey := "KEY" },
            submittingToken := none, tokenValidationFailed := false }
          ("")).state.selectedRepository = none) ∧
       ((handleSearch
          { bitbucketSetting := none, importing := false, loading := false,
            patIsValid := none, projects := none, projectRepositories := none,
            searching := true,
            searchResults :=
              some [{ id := 1, slug := "sl", name := "Repo",
                      projectKey := "KEY" }],
            selectedRepository :=
              some { id := 1, slug := "sl", name := "Repo",
                     projectKey := "KEY" },
            submittingToken := none, tokenValidationFailed := false }
          ("")).state.searching = false)) := by
  decide

/-- C10 as amended: when a `bitbucketSetting` is configured, `handleSearch`
with an empty query clears `searchResults` and `selectedRepository`, sets
`searching` to false, issues no network request, and leaves every other
state field unchanged. -/
theorem handleSearch_empty_query_clears (s : ComponentState) (key : String)
    (hset : s.bitbucketSetting = some key) :
    (handleSearch s ("")).requestIssued = false ∧
    (handleSearch s ("")).state.searching = false ∧
    (handleSearch s ("")).state.searchResults = none ∧
    (handleSearch s ("")).state.selectedRepository = none ∧
    (handleSearch s ("")).state.bitbucketSetting = s.bitbucketSetting ∧
    (handleSearch s ("")).state.importing = s.importing ∧
    (handleSearch s ("")).state.loading = s.loading ∧
    (handleSearch s ("")).state.patIsValid = s.patIsValid ∧
    (handleSearch s ("")).state.projects = s.projects ∧
    (handleSearch s ("")).state.projectRepositories
      = s.projectRepositories ∧
    (handleSearch s ("")).state.submittingToken = s.submittingToken ∧
    (handleSearch s ("")).state.tokenValidationFailed
      = s.tokenValidationFailed := by
  refine ⟨?_, ?_, ?_, ?_, ?_, ?_, ?_, ?_, ?_, ?_, ?_, ?_⟩ <;>
    simp [handleSearch, hset]

/-- Witness for C10's amended claim at a concrete searching state. -/
theorem handleSearch_empty_query_clears_witness :
    (({ bitbucketSetting := some "inst", importing := true, loading := false,
        patIsValid := some true, projects := some [],
        projectRepositories := none, searching := true,
        searchResults :=
          some [{ id := 1, slug := "sl", name := "Repo",
                  projectKey := "KEY" }],
        selectedRepository :=
          some { id := 1, slug := "sl", name := "Repo",
                 projectKey := "KEY" },
        submittingToken := some false,
        tokenValidationFailed := true } : ComponentState).bitbucketSetting
      = some "inst") ∧
    ((handleSearch
        { bitbucketSetting := some "inst", importing := true, loading := false,
          patIsValid := some true, projects := some [],
          projectRepositories := none, searching := true,
          searchResults :=
            some [{ id := 1, slug := "sl", name := "Repo",
                    projectKey := "KEY" }],
          selectedRepository :=
            some { id := 1, slug := "sl", name := "Repo",
                   projectKey := "KEY" },
          submittingToken := some false, tokenValidationFailed := true }
        ("")).requestIssued = false) ∧
    ((handleSearch
        { bitbucketSetting := some "inst", importing := true, loading := false,
          patIsValid := some true, projects := some [],
          projectRepositories := none, searching := true,
          searchResults :=
            some [{ id := 1, slug := "sl", name := "Repo",
                    projectKey := "KEY" }],
          selectedRepository :=
            some { id := 1, slug := "sl", name := "Repo",
                   projectKey := "KEY" },
          submittingToken := some false, tokenValidationFailed := true }
        ("")).state.searching = false) ∧
    ((handleSearch
        { bitbucketSetting := some "inst", importing := true, loading := false,
          patIsValid := some true, projects := some [],
          projectRepositories := none, searching := true,
          searchResults :=
            some [{ id := 1, slug := "sl", name := "Repo",
                    projectKey := "KEY" }],
          selectedRepository :=
            some { id := 1, slug := "sl", name := "Repo",
                   projectKey := "KEY" },
          submittingToken := some false, tokenValidationFailed := true }
        ("")).state.selectedRepository = none) :=
  ⟨rfl,
   (handleSearch_empty_query_clears _ ("inst") rfl).1,
   (handleSearch_empty_query_clears _ ("inst") rfl).2.1,
   (handleSearch_empty_query_clears _ ("inst") rfl).2.2.2.1⟩

end BitbucketCreate
